import Mathlib

/-!
Verification development for the wav2mp3 batch converter
(`src/wav2mp3_multi_threaded_version_2.py` is the main pipeline; the other
scripts are earlier near-duplicates).  The Python functions are shallowly
embedded as executable Lean definitions over an explicit file-system state.

Modelling conventions:
* A file-system path is the list of its components (`Path := List String`);
  `pathlib` operations (`relative_to`, `with_suffix`, `mkdir(parents=True,
  exist_ok=True)`, `rglob`) are embedded as functions on these lists, with
  POSIX (case-sensitive) glob semantics, which is the platform the scripts
  are written for.
* ID3 frames (the mutagen library's objects) are embedded as an inductive
  type carrying exactly the attributes the scripts read.  A fact about the
  library that the embedding relies on: mutagen's `COMM` and `TXXX` classes
  are subclasses of `TextFrame`, so `hasattr(frame, "text")` is true for
  them (the repository itself relies on this: `preview_tags` renders every
  frame with a `.text` attribute — comments included — by joining
  `frame.text`, and `wav2mp3.py` reads `tags["COMM"][0]`).
* A Python constructor call such as `COMM(encoding=3, text=t)` is embedded
  as a record holding the class name and the keyword arguments that are
  actually passed; an argument that is not passed is recorded as `none`
  (mutagen then fills in the class default, which is not the source value).
* Exceptions are embedded with `Except`; a `try/except` block becomes a
  `match` on the `Except` value.  Sources of failure that are external to
  the code (a corrupt WAV, an unreadable tag container, a frame whose
  cloning raises) are oracles carried by the `World` state.
* The thread pool runs the per-file workers concurrently and aggregates
  outcomes with `as_completed`; since every task is independent and the
  aggregation is a commutative count, the run is embedded as a sequential
  fold over the discovered files.
-/

namespace W2M

/-! ## Paths and pathlib operations -/

abbrev Path : Type := List String

/-- `.wav`, `.mp3` suffix test on a file name, embedded over `List Char`
(case-sensitive, as POSIX `rglob` pattern matching is). -/
def strEndsWith (s suf : String) : Bool :=
  decide (suf.toList <:+ s.toList)

/-- Index of the last `'.'` in a character list, if any. -/
def lastDotIdx (cs : List Char) : Option Nat :=
  match cs.reverse.findIdx? (fun c => c = '.') with
  | none => none
  | some j => some (cs.length - 1 - j)

/-- `pathlib.PurePath.with_suffix(ext)` on a file name: the name's suffix is
the part after the last dot provided that dot is neither the first nor the
last character; the suffix (if any) is removed and `ext` appended. -/
def pyWithSuffix (name ext : String) : String :=
  let cs := name.toList
  match lastDotIdx cs with
  | some i =>
      if 0 < i && i + 1 < cs.length then String.mk (cs.take i ++ ext.toList)
      else String.mk (cs ++ ext.toList)
  | none => String.mk (cs ++ ext.toList)

/-- Final component of a path (`Path.name` in pathlib). -/
def fileName (p : Path) : String := p.getLastD ""

/-- `p` is strictly below `root` (the situation of every file produced by
`root.rglob(...)`; `Path.relative_to` then never raises). -/
def strictlyUnder (p root : Path) : Bool :=
  root.isPrefixOf p && root.length < p.length

/-- Lines 192–193 of the worker: `wav_file.relative_to(src_root)` followed by
`dst_root / relative_path.with_suffix(".mp3")`.  For a path that is not
strictly under `src` (which cannot arise from discovery) the `drop` returns
junk where Python would raise; every theorem about real tasks carries the
`strictlyUnder` hypothesis. -/
def destPath (src dst wav : Path) : Path :=
  let rel := wav.drop src.length
  dst ++ rel.dropLast ++ [pyWithSuffix (rel.getLastD "") ".mp3"]

/-- All non-empty ancestor prefixes of a directory path, the directories
`mkdir(parents=True)` guarantees to exist afterwards. -/
def prefixesOf (p : Path) : List Path :=
  (List.range p.length).map (fun i => p.take (i + 1))

/-- `dir.mkdir(parents=True, exist_ok=True)`: every ancestor of `dir` (and
`dir` itself) is created if missing; pre-existing directories are not an
error. -/
def mkdirParents (dirs : List Path) (dir : Path) : List Path :=
  dirs ++ (prefixesOf dir).filter (fun q => !(decide (q ∈ dirs)))

/-- `src_path.rglob("*.wav")` (module line 233): every file strictly below
`root` whose name matches the glob `*.wav` — a case-sensitive match on
POSIX, so a name ending in `.WAV` does not match.  (`sorted(...)` in the
source only permutes the list and is dropped: every claim is about counts
and membership.) -/
def discover (files : List Path) (root : Path) : List Path :=
  files.filter (fun p => strictlyUnder p root && strEndsWith (fileName p) ".wav")

/-! ## Log lines -/

inductive LogLevel
  | info
  | warning
  | error
deriving DecidableEq

structure LogLine where
  level : LogLevel
  msg : String
deriving DecidableEq

def pathStr (p : Path) : String := String.intercalate "/" p

/-! ## ID3 frames (mutagen objects read from the WAV) -/

/-- A source ID3 frame, carrying the attributes the script reads.
`textF` is a plain text frame (`TIT2`, `TALB`, `TPE1`, …); `comm`/`txxx`
are mutagen `COMM`/`TXXX` objects — note both subclass `TextFrame`, so they
*do* carry a `.text` attribute; `apic` is an embedded picture; `other` is a
frame with no `.text` attribute outside the handled classes; `bad` is a
frame whose cloning raises (caught by the `except` in
`_clone_id3_frame_to`). -/
inductive SrcFrame
  | textF (cls : String) (vals : List String)
  | comm (lang : Option String) (desc : Option String) (vals : List String)
  | txxx (desc : Option String) (vals : List String)
  | apic (mime : String) (ptype : Nat) (desc : Option String) (dat : List Nat)
  | other (cls : String)
  | bad (cls msg : String)
deriving DecidableEq

/-- `hasattr(frame, "text")`.  True for plain text frames and — a mutagen
library fact — for `COMM` and `TXXX`, which subclass `TextFrame`. -/
def SrcFrame.hasTextAttr : SrcFrame → Bool
  | .textF _ _ => true
  | .comm _ _ _ => true
  | .txxx _ _ => true
  | .apic _ _ _ _ => false
  | .other _ => false
  | .bad _ _ => false

/-- `frame.__class__` (its name). -/
def SrcFrame.clsName : SrcFrame → String
  | .textF cls _ => cls
  | .comm _ _ _ => "COMM"
  | .txxx _ _ => "TXXX"
  | .apic _ _ _ _ => "APIC"
  | .other cls => cls
  | .bad cls _ => cls

/-- `frame.text` (empty for frames without the attribute). -/
def SrcFrame.textOf : SrcFrame → List String
  | .textF _ vals => vals
  | .comm _ _ vals => vals
  | .txxx _ vals => vals
  | _ => []

/-- A target frame as built by a mutagen constructor call: the class used
and the keyword arguments passed.  A field that is `none` was *not passed*,
so mutagen fills in the class default there (not the source value). -/
structure TgtFrame where
  cls : String
  encoding : Nat
  text : List String := []
  lang : Option String := none
  desc : Option String := none
  mime : Option String := none
  ptype : Option Nat := none
  dat : Option (List Nat) := none
deriving DecidableEq

/-- Python's `x or d` for an optional string: `None` and the empty string
are both falsy and replaced by the default. -/
def pyOr (o : Option String) (d : String) : String :=
  match o with
  | none => d
  | some s => if s = "" then d else s

/-! ## `_clone_id3_frame_to` (lines 32–73) -/

/-- Body of the `try:` block of `_clone_id3_frame_to`, in source order:
1. `hasattr(frame, "text")` → `cls(encoding=3, text=text)` — this branch
   captures `COMM` and `TXXX` too, since both have `.text`;
2. `isinstance(frame, COMM)` → `COMM(encoding=3, lang=frame.lang or "eng",
   desc=frame.desc or "", text=frame.text)`;
3. `isinstance(frame, APIC)` → clone of mime/type/desc/data;
4. `isinstance(frame, TXXX)` → `TXXX(encoding=3, desc=frame.desc or "",
   text=frame.text)`;
5. otherwise fall through (`.ok none`: skipped, logged at info level).
A `bad` frame raises (`.error`). -/
def cloneBody (f : SrcFrame) : Except String (Option TgtFrame) :=
  match f with
  | .bad _ msg => .error msg
  | _ =>
    if f.hasTextAttr then
      .ok (some { cls := f.clsName, encoding := 3, text := f.textOf })
    else
      match f with
      | .comm lang desc vals =>
          .ok (some { cls := "COMM", encoding := 3, lang := some (pyOr lang "eng"),
                      desc := some (pyOr desc ""), text := vals })
      | .apic mime ptype desc dat =>
          .ok (some { cls := "APIC", encoding := 3, mime := some mime,
                      ptype := some ptype, desc := some (pyOr desc ""), dat := some dat })
      | .txxx desc vals =>
          .ok (some { cls := "TXXX", encoding := 3, desc := some (pyOr desc ""),
                      text := vals })
      | _ => .ok none

/-- `_clone_id3_frame_to(mp3_tags, key, frame)`: returns the frame added to
the target container (if any) together with the log lines emitted; the
Python return value `True` corresponds to `isSome`. -/
def _clone_id3_frame_to (key : String) (f : SrcFrame) : Option TgtFrame × List LogLine :=
  match cloneBody f with
  | .error e => (none, [⟨.warning, "ID3 frame " ++ key ++ " could not be cloned: " ++ e⟩])
  | .ok (some t) => (some t, [])
  | .ok none => (none, [⟨.info, "unknown/incompatible ID3 frame skipped: " ++ key⟩])

/-! ## `_copy_id3_from_wav_id3` (lines 76–89) and `_copy_from_riff_info` (lines 92–128) -/

/-- Result of one of the two tag-copy paths: how many frames were copied,
the rebuilt target container (started from scratch: `add_tags()` /
`tags.clear()`), whether `mp3_audio.save()` ran (i.e. the tag block of the
destination file was written), and the log. -/
structure TagCopyResult where
  copied : Nat
  frames : List TgtFrame
  saved : Bool
  log : List LogLine
deriving DecidableEq

/-- One iteration of the loop in `_copy_id3_from_wav_id3`: clone the frame,
increment the counter and extend the container when the clone succeeded. -/
def cloneStep (acc : TagCopyResult) (kf : String × SrcFrame) : TagCopyResult :=
  match _clone_id3_frame_to kf.1 kf.2 with
  | (some t, lg) =>
      { acc with copied := acc.copied + 1, frames := acc.frames ++ [t],
                 log := acc.log ++ lg }
  | (none, lg) => { acc with log := acc.log ++ lg }

/-- Rich path: iterate over the WAV's ID3 items, cloning each frame into
the fresh container; a frame whose clone fails contributes nothing but does
not stop the loop; `save()` runs at the end. -/
def _copy_id3_from_wav_id3 (items : List (String × SrcFrame)) : TagCopyResult :=
  items.foldl cloneStep ⟨0, [], true, []⟩

/-- The fixed RIFF INFO → ID3 translation table (lines 103–110). -/
def riffMapping : List (String × String) :=
  [("INAM", "TIT2"), ("IART", "TPE1"), ("IPRD", "TALB"),
   ("ICRD", "TYER"), ("IGNR", "TCON"), ("ITRK", "TRCK")]

/-- Flat path: the table keys are looked up in the RIFF INFO mapping and
translated with the value as-is; then `ICMT` → `COMM(lang="eng", desc="")`
and `ISFT` → `TSSE`; any other key is never looked at. -/
def _copy_from_riff_info (tags : List (String × String)) : TagCopyResult :=
  let base := riffMapping.foldl
    (fun acc km =>
      match tags.lookup km.1 with
      | some v =>
          { acc with copied := acc.copied + 1,
                     frames := acc.frames ++ [{ cls := km.2, encoding := 3, text := [v] }] }
      | none => acc)
    ⟨0, [], true, []⟩
  let withComm :=
    match tags.lookup "ICMT" with
    | some v =>
        { base with copied := base.copied + 1,
                    frames := base.frames ++
                      [{ cls := "COMM", encoding := 3, lang := some "eng",
                         desc := some "", text := [v] }] }
    | none => base
  match tags.lookup "ISFT" with
  | some v =>
      { withComm with copied := withComm.copied + 1,
                      frames := withComm.frames ++ [{ cls := "TSSE", encoding := 3, text := [v] }] }
  | none => withComm

/-! ## `copy_tags` (lines 131–152) -/

/-- The tag container found in the WAV: either an embedded ID3 (rich path)
or a RIFF INFO key/value mapping (flat path). -/
inductive WavTags
  | id3Tags (items : List (String × SrcFrame))
  | riffTags (pairs : List (String × String))
deriving DecidableEq

/-- Python truthiness of the container: an empty mapping is falsy, so
`if not wav_meta.tags: return 0`. -/
def WavTags.isEmptyTags : WavTags → Bool
  | .id3Tags items => items.isEmpty
  | .riffTags pairs => pairs.isEmpty

/-- Body of the `try:` block of `copy_tags`.  `parse = none` models
`WAVE(...)` raising; `some none` models a file without tags; opening the
freshly written MP3 can also raise (`mp3Open = false`). -/
def copy_tags_body (parse : Option (Option WavTags)) (mp3Open : Bool) :
    Except String TagCopyResult :=
  match parse with
  | none => .error "WAV container could not be parsed"
  | some none => .ok ⟨0, [], false, []⟩
  | some (some t) =>
    if t.isEmptyTags then .ok ⟨0, [], false, []⟩
    else if !mp3Open then .error "MP3 could not be opened"
    else
      match t with
      | .id3Tags items => .ok (_copy_id3_from_wav_id3 items)
      | .riffTags pairs => .ok (_copy_from_riff_info pairs)

/-- `copy_tags(wav_file, mp3_file)`: any exception in the body is caught,
logged as a warning, and turned into a zero-copied result — the function
never raises to its caller. -/
def copy_tags (parse : Option (Option WavTags)) (mp3Open : Bool) (wavName : String) :
    TagCopyResult :=
  match copy_tags_body parse mp3Open with
  | .ok r => r
  | .error e =>
      ⟨0, [], false, [⟨.warning, "tags could not be copied for " ++ wavName ++ ": " ++ e⟩]⟩

/-! ## File system, world, and the conversion worker `convert_one` (lines 187–211) -/

/-- Observable file-system state: audio files present under their paths
(what `mp3_file.exists()` inspects), the files whose ID3 tag block has been
written (`mp3_audio.save()` ran for them), and the directories that exist.
The `conversion.log` sink is kept outside `FS` — it is not an audio file;
log lines are returned alongside results. -/
structure FS where
  files : List Path
  tagged : List Path
  dirs : List Path
deriving DecidableEq

/-- The parts of the outside world a worker interacts with beyond the file
system, as oracles fixed for a run: whether `AudioSegment.from_wav`/`export`
succeed for a source file, what `WAVE(...)` yields for it (`none` = the
parse raises; `some none` = no tags; `some (some t)` = container `t`), and
whether `MP3(...)` opens the freshly written destination. -/
structure World where
  fs : FS
  decodeOk : Path → Bool
  wavParse : Path → Option (Option WavTags)
  mp3Open : Path → Bool

/-- `ConversionTask`: the arguments of one `convert_one` invocation. -/
structure Task where
  wav : Path
  src : Path
  dst : Path
  bitrate : String
  dryRun : Bool

inductive Outcome
  | converted
  | skipped
  | would_convert
  | failed
deriving DecidableEq

/-- The worker's observable steps and result: the outcome string it
returns, the successive observable file-system states (in program order),
and its log lines. -/
structure StepResult where
  outcome : Outcome
  states : List FS
  log : List LogLine
deriving DecidableEq

/-- `convert_one(wav_file, src_root, dst_root, bitrate, dry_run)` as a
sequence of observable file-system states, in source order:
1. compute the destination path (lines 192–193);
2. `mp3_file.parent.mkdir(parents=True, exist_ok=True)` (line 194) — this
   happens *before* the existence check;
3. `if mp3_file.exists(): return "skipped"` (lines 196–198);
4. `if dry_run: return "would_convert"` (lines 200–201);
5. decode + export (lines 204–205): on failure (corrupt WAV, codec error,
   modelled at the decode step) the worker catches and returns `"failed"`;
   on success the destination file becomes visible with encoded audio;
6. `copy_tags` (line 206) then writes the tag block as a separate step —
   only afterwards is the file tagged. -/
def convertSteps (w : World) (t : Task) : StepResult :=
  let dest := destPath t.src t.dst t.wav
  let fs0 : FS := { w.fs with dirs := mkdirParents w.fs.dirs dest.dropLast }
  if dest ∈ fs0.files then
    { outcome := .skipped, states := [fs0],
      log := [⟨.info, "skipped, already present: " ++ pathStr dest⟩] }
  else if t.dryRun then
    { outcome := .would_convert, states := [fs0], log := [] }
  else if w.decodeOk t.wav then
    let fs1 : FS := { fs0 with files := dest :: fs0.files }
    let tc := copy_tags (w.wavParse t.wav) (w.mp3Open dest) (pathStr t.wav)
    let fs2 : FS := if tc.saved then { fs1 with tagged := dest :: fs1.tagged } else fs1
    { outcome := .converted, states := [fs0, fs1, fs2],
      log := tc.log ++ [⟨.info, "converted: " ++ pathStr t.wav ++ " to " ++ pathStr dest⟩] }
  else
    { outcome := .failed, states := [fs0],
      log := [⟨.error, "error at " ++ pathStr t.wav⟩] }

/-- The worker's return value and final file-system state. -/
def convert_one (w : World) (t : Task) : Outcome × FS × List LogLine :=
  let r := convertSteps w t
  (r.outcome, r.states.getLastD w.fs, r.log)

/-! ## The run (`run_conversion`, lines 214–306, and `main`, lines 310–327) -/

/-- `(converted, skipped, failed)` counters of the live run. -/
def addOutcome (o : Outcome) (c : Nat × Nat × Nat) : Nat × Nat × Nat :=
  match o with
  | .converted => (c.1 + 1, c.2.1, c.2.2)
  | .skipped => (c.1, c.2.1 + 1, c.2.2)
  | .failed => (c.1, c.2.1, c.2.2 + 1)
  | .would_convert => c

/-- The live conversion over the discovered files (lines 270–295).  The
thread pool executes the independent per-file workers and counts outcomes
with `as_completed`; since counting is commutative and each task's effect
is confined to its own destination, the run is embedded as a sequential
fold threading the world. -/
def runLive (src dst : Path) (bitrate : String) :
    World → List Path → (Nat × Nat × Nat) × World × List LogLine
  | w, [] => ((0, 0, 0), w, [])
  | w, wav :: rest =>
    let r := convert_one w ⟨wav, src, dst, bitrate, false⟩
    let restR := runLive src dst bitrate { w with fs := r.2.1 } rest
    (addOutcome r.1 restR.1, restR.2.1, r.2.2 ++ restR.2.2)

/-- Dry-run accounting (lines 251–260): per discovered file only the
destination-existence check is performed; returns
`(would_convert, would_skip)`. -/
def dryCount (fs : FS) (src dst : Path) : List Path → Nat × Nat
  | [] => (0, 0)
  | wav :: rest =>
    let c := dryCount fs src dst rest
    if destPath src dst wav ∈ fs.files then (c.1, c.2 + 1) else (c.1 + 1, c.2)

structure Config where
  src : Path
  dst : Path
  bitrate : String
  workers : Nat
  dryRun : Bool
  preview : Nat

inductive RunOut
  | abortedNoSrc
  | noWavFiles
  | dryRunOut (wouldConvert wouldSkip : Nat)
  | liveOut (converted skipped failed : Nat)
deriving DecidableEq

/-- `src_path.exists()`. -/
def pathExists (fs : FS) (p : Path) : Bool :=
  decide (p ∈ fs.files) || decide (p ∈ fs.dirs)

/-- `run_conversion(src, dst, bitrate, workers, dry_run, preview)`:
if the source directory does not exist, print an error and *return* (lines
218–220) — nothing else happens; otherwise create the destination root
(line 222), set up the log, discover the WAV files (line 233), return early
when none are found, run the dry-run accounting loop or the live pool.
The read-only tag preview (lines 245–248) performs no file-system writes
and is omitted. -/
def run_conversion (w : World) (c : Config) : RunOut × World × List LogLine :=
  if !pathExists w.fs c.src then (.abortedNoSrc, w, [])
  else
    let w1 : World := { w with fs := { w.fs with dirs := mkdirParents w.fs.dirs c.dst } }
    let startLog : List LogLine := [⟨.info, "starting conversion"⟩]
    let wavs := discover w1.fs.files c.src
    if wavs.isEmpty then (.noWavFiles, w1, startLog)
    else if c.dryRun then
      let dc := dryCount w1.fs c.src c.dst wavs
      (.dryRunOut dc.1 dc.2, w1, startLog)
    else
      let r := runLive c.src c.dst c.bitrate w1 wavs
      (.liveOut r.1.1 r.1.2.1 r.1.2.2, r.2.1,
       startLog ++ r.2.2 ++ [⟨.info, "finished"⟩])

/-- `main()` (lines 310–327): parses the arguments, calls
`run_conversion`, and returns.  There is no `sys.exit` call anywhere in the
script, and falling off the end of `main` makes the interpreter exit with
status 0 — in every case `run_conversion` handles, including a missing
source directory and per-file failures. -/
def mainExit (w : World) (c : Config) : RunOut × Nat :=
  let r := run_conversion w c
  (r.1, 0)

/-! ## Theorems: tag translation (C1, C2, C3) -/

/-- C1.  The claim says the rich path preserves a comment frame's language
code (with the fixed fallback `"eng"` when absent) and its description, and
a user-defined text frame's description.  The code does not: mutagen's
`COMM` and `TXXX` subclass `TextFrame`, so `hasattr(frame, "text")` is true
for them and the first branch of `_clone_id3_frame_to` clones them as
`cls(encoding=3, text=text)` — the `lang` and `desc` keyword arguments are
never passed (recorded here as `none`), so the dedicated `COMM` and `TXXX`
branches of the function are unreachable and the source language code and
description are dropped in favour of the mutagen class defaults. -/
theorem C1_comm_txxx_lang_desc_dropped :
    _clone_id3_frame_to "COMM" (.comm (some "deu") (some "note") ["hallo"]) =
      (some ⟨"COMM", 3, ["hallo"], none, none, none, none, none⟩, []) ∧
    _clone_id3_frame_to "TXXX:note" (.txxx (some "note") ["v"]) =
      (some ⟨"TXXX", 3, ["v"], none, none, none, none, none⟩, []) := by
  exact ⟨rfl, rfl⟩

/-- C2.  Rich-path translation of every frame carrying a textual payload:
it is cloned as a frame of the same class, with encoding 3 (UTF-8), and
with the full value list — not just the first element — preserved. -/
theorem C2_text_frames_cloned_with_full_value_list (key : String) (f : SrcFrame)
    (h : f.hasTextAttr = true) :
    _clone_id3_frame_to key f =
      (some { cls := f.clsName, encoding := 3, text := f.textOf }, []) := by
  cases f <;>
    simp_all [_clone_id3_frame_to, cloneBody, SrcFrame.hasTextAttr, SrcFrame.clsName,
      SrcFrame.textOf]

/-- Witness for C2 at a concrete two-valued text frame. -/
theorem C2_text_frames_cloned_with_full_value_list_witness :
    (SrcFrame.textF "TIT2" ["a", "b"]).hasTextAttr = true ∧
    _clone_id3_frame_to "TIT2" (.textF "TIT2" ["a", "b"]) =
      (some { cls := "TIT2", encoding := 3, text := ["a", "b"] }, []) :=
  ⟨rfl, C2_text_frames_cloned_with_full_value_list "TIT2" (.textF "TIT2" ["a", "b"]) rfl⟩

/-- The `List.lookup`s performed by the flat path ignore a leading pair
whose key is different. -/
theorem lookup_cons_of_ne {β : Type} (a k : String) (v : β) (tags : List (String × β))
    (h : (a == k) = false) :
    List.lookup a ((k, v) :: tags) = List.lookup a tags := by
  simp [List.lookup, h]

/-- The eight RIFF INFO keys the flat path recognises. -/
def flatKeys : List String :=
  ["INAM", "IART", "IPRD", "ICRD", "IGNR", "ITRK", "ICMT", "ISFT"]

/-- C3 counterexample.  The claim's concrete example says a flat container
`{"TIT2": "Song"}` yields a target tag set whose title equals `"Song"`;
but `TIT2` is not a key of the flat translation table (the title key is
`INAM`), so the container translates to zero frames and no title at all. -/
theorem C3_counterexample_flat_TIT2_unmapped :
    _copy_from_riff_info [("TIT2", "Song")] = ⟨0, [], true, []⟩ := by
  exact rfl

/-- C3 as amended.  Flat-path translation applies the fixed table: a pair
with an unmapped key is dropped silently (the result is as if the pair were
absent), and each of the eight well-known keys maps to its target frame
class with the value taken as-is — in particular `{"INAM": "Song"}` yields
the title frame `TIT2` with text `"Song"`. -/
theorem C3_flat_translation_table :
    (∀ (k v : String) (tags : List (String × String)), k ∉ flatKeys →
        _copy_from_riff_info ((k, v) :: tags) = _copy_from_riff_info tags) ∧
    (∀ v, _copy_from_riff_info [("INAM", v)] =
        ⟨1, [⟨"TIT2", 3, [v], none, none, none, none, none⟩], true, []⟩) ∧
    (∀ v, _copy_from_riff_info [("IART", v)] =
        ⟨1, [⟨"TPE1", 3, [v], none, none, none, none, none⟩], true, []⟩) ∧
    (∀ v, _copy_from_riff_info [("IPRD", v)] =
        ⟨1, [⟨"TALB", 3, [v], none, none, none, none, none⟩], true, []⟩) ∧
    (∀ v, _copy_from_riff_info [("ICRD", v)] =
        ⟨1, [⟨"TYER", 3, [v], none, none, none, none, none⟩], true, []⟩) ∧
    (∀ v, _copy_from_riff_info [("IGNR", v)] =
        ⟨1, [⟨"TCON", 3, [v], none, none, none, none, none⟩], true, []⟩) ∧
    (∀ v, _copy_from_riff_info [("ITRK", v)] =
        ⟨1, [⟨"TRCK", 3, [v], none, none, none, none, none⟩], true, []⟩) ∧
    (∀ v, _copy_from_riff_info [("ICMT", v)] =
        ⟨1, [⟨"COMM", 3, [v], some "eng", some "", none, none, none⟩], true, []⟩) ∧
    (∀ v, _copy_from_riff_info [("ISFT", v)] =
        ⟨1, [⟨"TSSE", 3, [v], none, none, none, none, none⟩], true, []⟩) := by
  refine ⟨?_, fun v => rfl, fun v => rfl, fun v => rfl, fun v => rfl, fun v => rfl,
    fun v => rfl, fun v => rfl, fun v => rfl⟩
  intro k v tags h
  simp only [flatKeys, List.mem_cons, List.not_mem_nil, or_false, not_or] at h
  obtain ⟨h1, h2, h3, h4, h5, h6, h7, h8⟩ := h
  have e : ∀ a : String, ¬ k = a → List.lookup a ((k, v) :: tags) = List.lookup a tags := by
    intro a ha
    exact lookup_cons_of_ne a k v tags (beq_eq_false_iff_ne.mpr (fun hh => ha hh.symm))
  simp only [_copy_from_riff_info, riffMapping, List.foldl_cons, List.foldl_nil,
    e "INAM" h1, e "IART" h2, e "IPRD" h3, e "ICRD" h4, e "IGNR" h5, e "ITRK" h6,
    e "ICMT" h7, e "ISFT" h8]

/-- Witness for C3: the hypothetical unmapped key `XFOO` is dropped without
error, and `INAM` produces the `"Song"` title. -/
theorem C3_flat_translation_table_witness :
    _copy_from_riff_info [("XFOO", "bar")] = _copy_from_riff_info [] ∧
    _copy_from_riff_info [("INAM", "Song")] =
      ⟨1, [⟨"TIT2", 3, ["Song"], none, none, none, none, none⟩], true, []⟩ :=
  ⟨C3_flat_translation_table.1 "XFOO" "bar" [] (by decide),
   C3_flat_translation_table.2.1 "Song"⟩

/-! ## Theorems: tag-copy error recovery (C6) -/

/-- The copied-count and frame components of the rich-path loop depend only
on the corresponding components of the accumulator (the log is threaded
independently). -/
theorem foldl_cloneStep_congr (l : List (String × SrcFrame)) :
    ∀ acc1 acc2 : TagCopyResult, acc1.copied = acc2.copied → acc1.frames = acc2.frames →
      (List.foldl cloneStep acc1 l).copied = (List.foldl cloneStep acc2 l).copied ∧
      (List.foldl cloneStep acc1 l).frames = (List.foldl cloneStep acc2 l).frames := by
  induction l with
  | nil => exact fun acc1 acc2 hc hf => ⟨hc, hf⟩
  | cons kf rest ih =>
      intro acc1 acc2 hc hf
      simp only [List.foldl_cons]
      refine ih _ _ ?_ ?_ <;>
        rcases hcl : _clone_id3_frame_to kf.1 kf.2 with ⟨o, lg⟩ <;>
          cases o <;> simp [cloneStep, hcl, hc, hf]

/-- A frame whose cloning raises leaves the counter and the container
untouched (only a warning is appended to the log). -/
theorem cloneStep_bad (acc : TagCopyResult) (k c m : String) :
    (cloneStep acc (k, .bad c m)).copied = acc.copied ∧
    (cloneStep acc (k, .bad c m)).frames = acc.frames := by
  simp [cloneStep, _clone_id3_frame_to, cloneBody]

/-- C6.  (i) When the source tag container cannot be parsed, `copy_tags`
returns zero copied tags, an empty container and a logged warning — it does
not raise.  (ii) When an individual frame's clone raises, exactly that
frame is skipped: the copied count and the copied frames are those of the
item list without it.  (iii) The worker's outcome is `converted` whenever
decode/encode succeed, for *every* tag-copy oracle — including a failing
parse — so tag errors alone never produce `failed`. -/
theorem C6_tag_errors_never_fatal :
    (∀ (mp3Open : Bool) (wavName : String),
        copy_tags none mp3Open wavName =
          ⟨0, [], false,
           [⟨.warning, "tags could not be copied for " ++ wavName ++ ": " ++
              "WAV container could not be parsed"⟩]⟩) ∧
    (∀ (pre post : List (String × SrcFrame)) (k c m : String),
        (_copy_id3_from_wav_id3 (pre ++ (k, SrcFrame.bad c m) :: post)).copied =
          (_copy_id3_from_wav_id3 (pre ++ post)).copied ∧
        (_copy_id3_from_wav_id3 (pre ++ (k, SrcFrame.bad c m) :: post)).frames =
          (_copy_id3_from_wav_id3 (pre ++ post)).frames) ∧
    (∀ (w : World) (t : Task), t.dryRun = false →
        destPath t.src t.dst t.wav ∉ w.fs.files → w.decodeOk t.wav = true →
        (convert_one w t).1 = .converted) := by
  refine ⟨fun mp3Open wavName => rfl, ?_, ?_⟩
  · intro pre post k c m
    unfold _copy_id3_from_wav_id3
    rw [List.foldl_append, List.foldl_append, List.foldl_cons]
    exact foldl_cloneStep_congr post _ _ (cloneStep_bad _ k c m).1 (cloneStep_bad _ k c m).2
  · intro w t hdry hmem hdec
    simp [convert_one, convertSteps, hdry, hdec, hmem]

/-- Witness for C6: a one-file world whose WAV container is unreadable
still yields the outcome `converted`. -/
theorem C6_tag_errors_never_fatal_witness :
    (convert_one
        ⟨⟨[], [], []⟩, fun _ => true, fun _ => none, fun _ => true⟩
        ⟨["s", "a.wav"], ["s"], ["d"], "192k", false⟩).1 = Outcome.converted :=
  C6_tag_errors_never_fatal.2.2
    ⟨⟨[], [], []⟩, fun _ => true, fun _ => none, fun _ => true⟩
    ⟨["s", "a.wav"], ["s"], ["d"], "192k", false⟩
    rfl (by simp) rfl

/-! ## Theorems: discovery and destination-path resolution (C5) -/

/-- Whatever the source file name, `with_suffix(".mp3")` produces a name
ending in the canonical lowercase `.mp3`. -/
theorem pyWithSuffix_endsWith_ext (name : String) :
    strEndsWith (pyWithSuffix name ".mp3") ".mp3" = true := by
  have hsuf : ∀ l : List Char,
      decide (".mp3".toList <:+ (String.mk (l ++ ".mp3".toList)).toList) = true :=
    fun l => decide_eq_true (List.suffix_append l ".mp3".toList)
  unfold strEndsWith pyWithSuffix
  dsimp only
  cases h : lastDotIdx name.toList with
  | none => exact hsuf _
  | some i =>
      by_cases hc : (0 < i && decide (i + 1 < name.toList.length)) = true
      · show decide (".mp3".toList <:+
          (if (0 < i && decide (i + 1 < name.toList.length)) = true
            then String.mk (name.toList.take i ++ ".mp3".toList)
            else String.mk (name.toList ++ ".mp3".toList)).toList) = true
        rw [if_pos hc]
        exact hsuf _
      · show decide (".mp3".toList <:+
          (if (0 < i && decide (i + 1 < name.toList.length)) = true
            then String.mk (name.toList.take i ++ ".mp3".toList)
            else String.mk (name.toList ++ ".mp3".toList)).toList) = true
        rw [if_neg hc]
        exact hsuf _

/-- C5 counterexample.  The claim says both `.wav` and `.WAV` files are
discovered; but the discovery glob `*.wav` is a case-sensitive POSIX match,
so an uppercase `song.WAV` under the source root is not discovered (while
the lowercase sibling is). -/
theorem C5_counterexample_uppercase_not_discovered :
    ["m", "song.WAV"] ∉ discover [["m", "song.WAV"], ["m", "song2.wav"]] ["m"] ∧
    ["m", "song2.wav"] ∈ discover [["m", "song.WAV"], ["m", "song2.wav"]] ["m"] ∧
    strictlyUnder ["m", "song.WAV"] ["m"] = true := by
  refine ⟨?_, ?_, rfl⟩ <;> decide

/-- C5 as amended.  (i) A path is discovered exactly when it is an existing
file strictly below the source root whose name matches `*.wav`
case-sensitively.  (ii) The emitted extension is always the canonical
lowercase `.mp3`.  (iii) For every discovered-shape source file, the
destination path is the source path made relative to the source root,
re-rooted under the destination root, with the file name's extension
replaced. -/
theorem C5_destination_path_resolution :
    (∀ (files : List Path) (root p : Path),
        p ∈ discover files root ↔
          p ∈ files ∧ strictlyUnder p root = true ∧
            strEndsWith (fileName p) ".wav" = true) ∧
    (∀ name : String, strEndsWith (pyWithSuffix name ".mp3") ".mp3" = true) ∧
    (∀ src dst wav : Path, strictlyUnder wav src = true →
        destPath src dst wav =
          dst ++ (wav.drop src.length).dropLast ++ [pyWithSuffix (fileName wav) ".mp3"]) := by
  refine ⟨?_, pyWithSuffix_endsWith_ext, ?_⟩
  · intro files root p
    simp [discover, List.mem_filter]
  · intro src dst wav h
    simp only [strictlyUnder, Bool.and_eq_true, decide_eq_true_eq] at h
    obtain ⟨hp, hl⟩ := h
    rw [List.isPrefixOf_iff_prefix] at hp
    obtain ⟨rel, rfl⟩ := hp
    have hrel : rel ≠ [] := by
      intro hnil
      rw [hnil] at hl
      simp at hl
    simp only [destPath, fileName, List.drop_left]
    rw [List.getLastD_eq_getLast?, List.getLastD_eq_getLast?,
      List.getLast?_append_of_ne_nil src hrel]

/-- Witness for C5 at a nested concrete file. -/
theorem C5_destination_path_resolution_witness :
    (["m", "sub", "a.wav"] ∈ discover [["m", "sub", "a.wav"]] ["m"] ↔
      ["m", "sub", "a.wav"] ∈ [[("m" : String), "sub", "a.wav"]] ∧
        strictlyUnder ["m", "sub", "a.wav"] ["m"] = true ∧
        strEndsWith (fileName ["m", "sub", "a.wav"]) ".wav" = true) ∧
    strEndsWith (pyWithSuffix "a.wav" ".mp3") ".mp3" = true ∧
    destPath ["m"] ["d"] ["m", "sub", "a.wav"] =
      ["d"] ++ (["m", "sub", "a.wav"].drop (["m"] : Path).length).dropLast ++
        [pyWithSuffix (fileName ["m", "sub", "a.wav"]) ".mp3"] :=
  ⟨C5_destination_path_resolution.1 [["m", "sub", "a.wav"]] ["m"] ["m", "sub", "a.wav"],
   C5_destination_path_resolution.2.1 "a.wav",
   C5_destination_path_resolution.2.2 ["m"] ["d"] ["m", "sub", "a.wav"] (by decide)⟩

/-! ## Worker case analysis -/

/-- Destination existing ⇒ the worker returns `skipped` and the set of
files is untouched (the destination is never overwritten). -/
theorem convert_one_skipped (w : World) (t : Task)
    (h : destPath t.src t.dst t.wav ∈ w.fs.files) :
    (convert_one w t).1 = .skipped ∧ (convert_one w t).2.1.files = w.fs.files := by
  simp [convert_one, convertSteps, h]

/-- Destination fresh and dry-run set ⇒ `would_convert`, files untouched. -/
theorem convert_one_would (w : World) (t : Task)
    (h : destPath t.src t.dst t.wav ∉ w.fs.files) (hd : t.dryRun = true) :
    (convert_one w t).1 = .would_convert ∧ (convert_one w t).2.1.files = w.fs.files := by
  simp [convert_one, convertSteps, h, hd]

/-- Destination fresh, live run, decode/encode succeed ⇒ `converted`, and
exactly the destination file is added. -/
theorem convert_one_conv (w : World) (t : Task)
    (h : destPath t.src t.dst t.wav ∉ w.fs.files) (hdry : t.dryRun = false)
    (hdec : w.decodeOk t.wav = true) :
    (convert_one w t).1 = .converted ∧
    (convert_one w t).2.1.files = destPath t.src t.dst t.wav :: w.fs.files := by
  refine ⟨by simp [convert_one, convertSteps, h, hdry, hdec], ?_⟩
  simp only [convert_one, convertSteps]
  rw [if_neg h, if_neg (by simp [hdry]), if_pos hdec]
  split <;> rfl

/-- Destination fresh, live run, decode/encode fail ⇒ `failed`, files
untouched. -/
theorem convert_one_fail (w : World) (t : Task)
    (h : destPath t.src t.dst t.wav ∉ w.fs.files) (hdry : t.dryRun = false)
    (hdec : w.decodeOk t.wav = false) :
    (convert_one w t).1 = .failed ∧ (convert_one w t).2.1.files = w.fs.files := by
  simp [convert_one, convertSteps, h, hdry, hdec]

/-- Exhaustive case analysis of a live-run worker invocation. -/
theorem convert_one_cases (w : World) (t : Task) (hdry : t.dryRun = false) :
    ((convert_one w t).1 = .skipped ∧ destPath t.src t.dst t.wav ∈ w.fs.files ∧
      (convert_one w t).2.1.files = w.fs.files) ∨
    ((convert_one w t).1 = .converted ∧
      (convert_one w t).2.1.files = destPath t.src t.dst t.wav :: w.fs.files) ∨
    ((convert_one w t).1 = .failed ∧ (convert_one w t).2.1.files = w.fs.files ∧
      w.decodeOk t.wav = false) := by
  by_cases hm : destPath t.src t.dst t.wav ∈ w.fs.files
  · exact Or.inl ⟨(convert_one_skipped w t hm).1, hm, (convert_one_skipped w t hm).2⟩
  · by_cases hd : w.decodeOk t.wav = true
    · exact Or.inr (Or.inl (convert_one_conv w t hm hdry hd))
    · have hd' : w.decodeOk t.wav = false := by simpa using hd
      exact Or.inr (Or.inr ⟨(convert_one_fail w t hm hdry hd').1,
        (convert_one_fail w t hm hdry hd').2, hd'⟩)

/-- The worker never removes a file. -/
theorem convert_one_files_mono (w : World) (t : Task) (p : Path)
    (hp : p ∈ w.fs.files) : p ∈ (convert_one w t).2.1.files := by
  by_cases hm : destPath t.src t.dst t.wav ∈ w.fs.files
  · rw [(convert_one_skipped w t hm).2]; exact hp
  · by_cases hd : t.dryRun = true
    · rw [(convert_one_would w t hm hd).2]; exact hp
    · have hd' : t.dryRun = false := by simpa using hd
      by_cases he : w.decodeOk t.wav = true
      · rw [(convert_one_conv w t hm hd' he).2]; exact List.mem_cons_of_mem _ hp
      · have he' : w.decodeOk t.wav = false := by simpa using he
        rw [(convert_one_fail w t hm hd' he').2]; exact hp

/-- Whatever the branch, the worker's final state contains the destination
parent-directory tree (the `mkdir` at line 194 precedes every branch). -/
theorem convert_one_dirs (w : World) (t : Task) :
    (convert_one w t).2.1.dirs =
      mkdirParents w.fs.dirs ((destPath t.src t.dst t.wav).dropLast) := by
  simp only [convert_one, convertSteps]
  split
  · rfl
  · split
    · rfl
    · split
      · split <;> rfl
      · rfl

/-- `mkdir(parents=True, exist_ok=True)` guarantees every ancestor of the
target directory exists afterwards. -/
theorem mem_mkdirParents (dirs : List Path) (d q : Path) (hq : q ∈ prefixesOf d) :
    q ∈ mkdirParents dirs d := by
  by_cases h : q ∈ dirs
  · exact List.mem_append_left _ h
  · refine List.mem_append_right _ ?_
    simp [List.mem_filter, hq, h]

/-! ## Theorems: parent-directory side effect (C10) -/

/-- C10.  The worker creates the destination file's parent directories
(recursively, tolerating pre-existing ones) *before* the
destination-existence check: even a task that ends `skipped` (destination
already present) or `would_convert` (dry-run flag) leaves the whole parent
chain of the destination present in the final state. -/
theorem C10_parent_dirs_created_before_existence_check (w : World) (t : Task)
    (_hunder : strictlyUnder t.wav t.src = true) :
    (∀ q ∈ prefixesOf ((destPath t.src t.dst t.wav).dropLast),
        q ∈ (convert_one w t).2.1.dirs) ∧
    (destPath t.src t.dst t.wav ∈ w.fs.files → (convert_one w t).1 = .skipped) ∧
    (destPath t.src t.dst t.wav ∉ w.fs.files → t.dryRun = true →
        (convert_one w t).1 = .would_convert) := by
  refine ⟨?_, fun hm => (convert_one_skipped w t hm).1,
    fun hm hd => (convert_one_would w t hm hd).1⟩
  intro q hq
  rw [convert_one_dirs]
  exact mem_mkdirParents _ _ _ hq

/-- Witness for C10: a dry-run task over an empty file system still leaves
the destination subdirectory created. -/
theorem C10_parent_dirs_created_before_existence_check_witness :
    (["d"] : Path) ∈
      (convert_one
        ⟨⟨[], [], []⟩, fun _ => true, fun _ => none, fun _ => true⟩
        ⟨["s", "sub", "a.wav"], ["s"], ["d"], "192k", true⟩).2.1.dirs ∧
    (convert_one
        ⟨⟨[], [], []⟩, fun _ => true, fun _ => none, fun _ => true⟩
        ⟨["s", "sub", "a.wav"], ["s"], ["d"], "192k", true⟩).1 = Outcome.would_convert :=
  ⟨(C10_parent_dirs_created_before_existence_check
      ⟨⟨[], [], []⟩, fun _ => true, fun _ => none, fun _ => true⟩
      ⟨["s", "sub", "a.wav"], ["s"], ["d"], "192k", true⟩ rfl).1 ["d"] (by decide),
   (C10_parent_dirs_created_before_existence_check
      ⟨⟨[], [], []⟩, fun _ => true, fun _ => none, fun _ => true⟩
      ⟨["s", "sub", "a.wav"], ["s"], ["d"], "192k", true⟩ rfl).2.2 (by simp) rfl⟩

/-! ## Run-level lemmas -/

/-- The live run only updates the file system: the decode oracle (the
"unchanged sources" of an idempotence re-run) is untouched. -/
theorem runLive_decodeOk_eq (src dst : Path) (br : String) (l : List Path) :
    ∀ w : World, ((runLive src dst br w l).2.1).decodeOk = w.decodeOk := by
  induction l with
  | nil => exact fun w => rfl
  | cons wav rest ih => exact fun w => ih _

/-- A run never removes a file. -/
theorem runLive_files_mono (src dst : Path) (br : String) (l : List Path) :
    ∀ (w : World) (p : Path), p ∈ w.fs.files →
      p ∈ ((runLive src dst br w l).2.1).fs.files := by
  induction l with
  | nil => exact fun w p hp => hp
  | cons wav rest ih =>
      intro w p hp
      exact ih _ p (convert_one_files_mono w ⟨wav, src, dst, br, false⟩ p hp)

/-- After a live run, every processed file either has its destination
present or its decode fails. -/
theorem runLive_post (src dst : Path) (br : String) (l : List Path) :
    ∀ w : World, ∀ p ∈ l,
      destPath src dst p ∈ ((runLive src dst br w l).2.1).fs.files ∨
      w.decodeOk p = false := by
  induction l with
  | nil => intro w p hp; cases hp
  | cons wav rest ih =>
      intro w p hp
      rcases List.mem_cons.mp hp with heq | hrest
      · subst heq
        rcases convert_one_cases w ⟨p, src, dst, br, false⟩ rfl with
          ⟨_, hm, hf⟩ | ⟨_, hf⟩ | ⟨_, _, hdec⟩
        · left
          exact runLive_files_mono src dst br rest _ _ (by rw [hf]; exact hm)
        · left
          exact runLive_files_mono src dst br rest _ _ (by rw [hf]; exact List.mem_cons_self _ _)
        · right; exact hdec
      · rcases ih { w with fs := (convert_one w ⟨wav, src, dst, br, false⟩).2.1 } p hrest with
          hmem | hdec
        · left; exact hmem
        · right; exact hdec

/-- If at the start of a live run every file's destination already exists
or its decode fails, the run converts nothing. -/
theorem runLive_converted_zero (src dst : Path) (br : String) (l : List Path) :
    ∀ w : World,
      (∀ p ∈ l, destPath src dst p ∈ w.fs.files ∨ w.decodeOk p = false) →
      (runLive src dst br w l).1.1 = 0 := by
  induction l with
  | nil => exact fun w _ => rfl
  | cons wav rest ih =>
      intro w h
      have hrest : ∀ p ∈ rest,
          destPath src dst p ∈
            ({ w with fs := (convert_one w ⟨wav, src, dst, br, false⟩).2.1 } : World).fs.files ∨
          ({ w with fs := (convert_one w ⟨wav, src, dst, br, false⟩).2.1 } : World).decodeOk p
            = false := by
        intro p hp
        rcases h p (List.mem_cons_of_mem _ hp) with hm | hd
        · exact Or.inl (convert_one_files_mono w ⟨wav, src, dst, br, false⟩
            (destPath src dst p) hm)
        · exact Or.inr hd
      have h0 := ih _ hrest
      show (addOutcome (convert_one w ⟨wav, src, dst, br, false⟩).1 _).1 = 0
      rcases h wav (List.mem_cons_self _ _) with hm | hd
      · rw [(convert_one_skipped w ⟨wav, src, dst, br, false⟩ hm).1]
        simpa [addOutcome] using h0
      · by_cases hm2 : destPath src dst wav ∈ w.fs.files
        · rw [(convert_one_skipped w ⟨wav, src, dst, br, false⟩ hm2).1]
          simpa [addOutcome] using h0
        · rw [(convert_one_fail w ⟨wav, src, dst, br, false⟩ hm2 rfl hd).1]
          simpa [addOutcome] using h0

/-- A live run with zero failures leaves every processed file's
destination present. -/
theorem runLive_failed_zero (src dst : Path) (br : String) (l : List Path) :
    ∀ w : World, (runLive src dst br w l).1.2.2 = 0 →
      ∀ p ∈ l, destPath src dst p ∈ ((runLive src dst br w l).2.1).fs.files := by
  induction l with
  | nil => intro w _ p hp; cases hp
  | cons wav rest ih =>
      intro w h p hp
      rcases convert_one_cases w ⟨wav, src, dst, br, false⟩ rfl with
        ⟨ho, hm, hf⟩ | ⟨ho, hf⟩ | ⟨ho, hf, hdec⟩
      · have h' : (runLive src dst br
            { w with fs := (convert_one w ⟨wav, src, dst, br, false⟩).2.1 } rest).1.2.2 = 0 := by
          have h2 : (addOutcome (convert_one w ⟨wav, src, dst, br, false⟩).1
              (runLive src dst br
                { w with fs := (convert_one w ⟨wav, src, dst, br, false⟩).2.1 } rest).1).2.2
              = 0 := h
          rw [ho] at h2
          simpa [addOutcome] using h2
        rcases List.mem_cons.mp hp with heq | hrest
        · subst heq
          exact runLive_files_mono src dst br rest _ _ (by rw [hf]; exact hm)
        · exact ih _ h' p hrest
      · have h' : (runLive src dst br
            { w with fs := (convert_one w ⟨wav, src, dst, br, false⟩).2.1 } rest).1.2.2 = 0 := by
          have h2 : (addOutcome (convert_one w ⟨wav, src, dst, br, false⟩).1
              (runLive src dst br
                { w with fs := (convert_one w ⟨wav, src, dst, br, false⟩).2.1 } rest).1).2.2
              = 0 := h
          rw [ho] at h2
          simpa [addOutcome] using h2
        rcases List.mem_cons.mp hp with heq | hrest
        · subst heq
          exact runLive_files_mono src dst br rest _ _ (by rw [hf]; exact List.mem_cons_self _ _)
        · exact ih _ h' p hrest
      · exfalso
        have h2 : (addOutcome (convert_one w ⟨wav, src, dst, br, false⟩).1
            (runLive src dst br
              { w with fs := (convert_one w ⟨wav, src, dst, br, false⟩).2.1 } rest).1).2.2
            = 0 := h
        rw [ho] at h2
        simp [addOutcome] at h2

/-- When every file's destination already exists, a live run skips every
task. -/
theorem runLive_all_skipped (src dst : Path) (br : String) (l : List Path) :
    ∀ w : World, (∀ p ∈ l, destPath src dst p ∈ w.fs.files) →
      (runLive src dst br w l).1 = (0, l.length, 0) := by
  induction l with
  | nil => exact fun w _ => rfl
  | cons wav rest ih =>
      intro w h
      have hm := h wav (List.mem_cons_self _ _)
      have hsk := convert_one_skipped w ⟨wav, src, dst, br, false⟩ hm
      have hrest : ∀ p ∈ rest, destPath src dst p ∈
          ({ w with fs := (convert_one w ⟨wav, src, dst, br, false⟩).2.1 } : World).fs.files := by
        intro p hp
        show destPath src dst p ∈ (convert_one w ⟨wav, src, dst, br, false⟩).2.1.files
        rw [hsk.2]
        exact h p (List.mem_cons_of_mem _ hp)
      show (addOutcome (convert_one w ⟨wav, src, dst, br, false⟩).1 _) = _
      rw [hsk.1, ih _ hrest]
      simp [addOutcome]

/-! ## Theorems: no-clobber and idempotence (C4) -/

/-- C4 counterexample.  The claim says a second run of the whole pipeline
against an unchanged source/destination pair leaves *every* task Skipped.
With a source file whose decode fails (the `broken.wav` scenario of the
spec's own §8), the first run ends `Failed:1`; the destination was never
created, so the second run re-attempts and fails again: its summary is
`liveOut 0 0 1` — zero conversions, but the one discovered task is
`failed`, not `skipped`. -/
theorem C4_counterexample_failed_task_reattempted :
    (run_conversion
        ⟨⟨[["s", "broken.wav"]], [], [["s"]]⟩, fun _ => false, fun _ => none, fun _ => true⟩
        ⟨["s"], ["d"], "192k", 2, false, 0⟩).1 = RunOut.liveOut 0 0 1 ∧
    (run_conversion
        (run_conversion
          ⟨⟨[["s", "broken.wav"]], [], [["s"]]⟩, fun _ => false, fun _ => none, fun _ => true⟩
          ⟨["s"], ["d"], "192k", 2, false, 0⟩).2.1
        ⟨["s"], ["d"], "192k", 2, false, 0⟩).1 = RunOut.liveOut 0 0 1 ∧
    (discover [["s", "broken.wav"]] ["s"]).length = 1 := by
  exact ⟨rfl, rfl, rfl⟩

/-- C4 as amended.  (i) A task whose destination exists before conversion
begins is `skipped` and the file set — in particular the destination file —
is untouched.  (ii) Consequently a second run against an unchanged
source/destination pair converts zero new files.  (iii) If the first run
had no failures, the second run skips every task (a task that `failed`
is instead re-attempted, as §4.4 of the spec itself notes). -/
theorem C4_no_clobber_and_idempotence :
    (∀ (w : World) (t : Task), destPath t.src t.dst t.wav ∈ w.fs.files →
        (convert_one w t).1 = .skipped ∧ (convert_one w t).2.1.files = w.fs.files) ∧
    (∀ (src dst : Path) (br : String) (l : List Path) (w : World),
        (runLive src dst br (runLive src dst br w l).2.1 l).1.1 = 0) ∧
    (∀ (src dst : Path) (br : String) (l : List Path) (w : World),
        (runLive src dst br w l).1.2.2 = 0 →
        (runLive src dst br (runLive src dst br w l).2.1 l).1 = (0, l.length, 0)) := by
  refine ⟨convert_one_skipped, ?_, ?_⟩
  · intro src dst br l w
    apply runLive_converted_zero
    intro p hp
    rcases runLive_post src dst br l w p hp with hm | hd
    · exact Or.inl hm
    · right
      rw [runLive_decodeOk_eq]
      exact hd
  · intro src dst br l w h
    exact runLive_all_skipped src dst br l _ (runLive_failed_zero src dst br l w h)

/-- Witness for C4: a task with a pre-existing destination is skipped with
files untouched, and a one-file world whose first run fully succeeds is
all-skipped on the second run. -/
theorem C4_no_clobber_and_idempotence_witness :
    (convert_one
        ⟨⟨[["d", "a.mp3"]], [], []⟩, fun _ => true, fun _ => none, fun _ => true⟩
        ⟨["s", "a.wav"], ["s"], ["d"], "192k", false⟩).1 = Outcome.skipped ∧
    (runLive ["s"] ["d"] "192k"
        (runLive ["s"] ["d"] "192k"
          ⟨⟨[["s", "a.wav"]], [], [["s"]]⟩, fun _ => true, fun _ => none, fun _ => true⟩
          [["s", "a.wav"]]).2.1
        [["s", "a.wav"]]).1 = (0, ([["s", "a.wav"]] : List Path).length, 0) :=
  ⟨(C4_no_clobber_and_idempotence.1
      ⟨⟨[["d", "a.mp3"]], [], []⟩, fun _ => true, fun _ => none, fun _ => true⟩
      ⟨["s", "a.wav"], ["s"], ["d"], "192k", false⟩ (by decide)).1,
   C4_no_clobber_and_idempotence.2.2 ["s"] ["d"] "192k" [["s", "a.wav"]]
      ⟨⟨[["s", "a.wav"]], [], [["s"]]⟩, fun _ => true, fun _ => none, fun _ => true⟩
      (by decide)⟩

/-! ## Theorems: tag-write visibility (C8) -/

/-- C8 counterexample.  The worker exports the audio first (line 205) and
writes tags afterwards (line 206): in the concrete run below the observable
state after the export — index 1 of the worker's state trace — has the
destination present under the path the existence check inspects while its
tag block has not been written; only the final state carries the tags.  So
there *is* an observable point with encoded audio but missing tags. -/
theorem C8_counterexample_untagged_window :
    ((convertSteps
        ⟨⟨[], [], []⟩, fun _ => true,
         fun _ => some (some (.id3Tags [("TIT2", SrcFrame.textF "TIT2" ["Song"])])),
         fun _ => true⟩
        ⟨["s", "a.wav"], ["s"], ["d"], "192k", false⟩).states.getD 1 ⟨[], [], []⟩).files =
      [["d", "a.mp3"]] ∧
    ((convertSteps
        ⟨⟨[], [], []⟩, fun _ => true,
         fun _ => some (some (.id3Tags [("TIT2", SrcFrame.textF "TIT2" ["Song"])])),
         fun _ => true⟩
        ⟨["s", "a.wav"], ["s"], ["d"], "192k", false⟩).states.getD 1 ⟨[], [], []⟩).tagged =
      [] ∧
    ((convertSteps
        ⟨⟨[], [], []⟩, fun _ => true,
         fun _ => some (some (.id3Tags [("TIT2", SrcFrame.textF "TIT2" ["Song"])])),
         fun _ => true⟩
        ⟨["s", "a.wav"], ["s"], ["d"], "192k", false⟩).states.getLastD ⟨[], [], []⟩).tagged =
      [["d", "a.mp3"]] := by
  exact ⟨rfl, rfl, rfl⟩

/-- C8 as amended.  Tag-writing is *not* atomic with respect to file
visibility: on every successful conversion that writes a tag block, the
worker's trace contains an observable state in which the destination file
is present (visible to the existence check) but not yet tagged, and a later
state in which it is tagged. -/
theorem C8_untagged_state_observable (w : World) (t : Task)
    (hdry : t.dryRun = false)
    (hmem : destPath t.src t.dst t.wav ∉ w.fs.files)
    (hdec : w.decodeOk t.wav = true)
    (htagged : destPath t.src t.dst t.wav ∉ w.fs.tagged)
    (hsaved : (copy_tags (w.wavParse t.wav) (w.mp3Open (destPath t.src t.dst t.wav))
        (pathStr t.wav)).saved = true) :
    ∃ s ∈ (convertSteps w t).states,
      destPath t.src t.dst t.wav ∈ s.files ∧ destPath t.src t.dst t.wav ∉ s.tagged ∧
      ∃ s2 ∈ (convertSteps w t).states, destPath t.src t.dst t.wav ∈ s2.tagged := by
  simp only [convertSteps]
  rw [if_neg hmem, if_neg (by simp [hdry]), if_pos hdec, if_pos hsaved]
  refine ⟨_, List.mem_cons_of_mem _ (List.mem_cons_self _ _),
    List.mem_cons_self _ _, htagged,
    _, List.mem_cons_of_mem _ (List.mem_cons_of_mem _ (List.mem_cons_self _ _)),
    List.mem_cons_self _ _⟩

/-- Witness for C8 at the concrete tagged one-file world. -/
theorem C8_untagged_state_observable_witness :
    ∃ s ∈ (convertSteps
        ⟨⟨[], [], []⟩, fun _ => true,
         fun _ => some (some (.id3Tags [("COMM", SrcFrame.comm (some "eng") (some "") ["c"])])),
         fun _ => true⟩
        ⟨["s", "b.wav"], ["s"], ["d"], "192k", false⟩).states,
      destPath ["s"] ["d"] ["s", "b.wav"] ∈ s.files ∧
      destPath ["s"] ["d"] ["s", "b.wav"] ∉ s.tagged ∧
      ∃ s2 ∈ (convertSteps
        ⟨⟨[], [], []⟩, fun _ => true,
         fun _ => some (some (.id3Tags [("COMM", SrcFrame.comm (some "eng") (some "") ["c"])])),
         fun _ => true⟩
        ⟨["s", "b.wav"], ["s"], ["d"], "192k", false⟩).states,
        destPath ["s"] ["d"] ["s", "b.wav"] ∈ s2.tagged :=
  C8_untagged_state_observable
    ⟨⟨[], [], []⟩, fun _ => true,
     fun _ => some (some (.id3Tags [("COMM", SrcFrame.comm (some "eng") (some "") ["c"])])),
     fun _ => true⟩
    ⟨["s", "b.wav"], ["s"], ["d"], "192k", false⟩
    rfl (by simp) rfl (by simp) rfl

/-! ## Theorems: dry run (C9) -/

/-- The two dry-run counters always sum to the number of discovered
files. -/
theorem dryCount_sum (fs : FS) (src dst : Path) (l : List Path) :
    (dryCount fs src dst l).1 + (dryCount fs src dst l).2 = l.length := by
  induction l with
  | nil => rfl
  | cons wav rest ih =>
      simp only [dryCount, List.length_cons]
      split
      · dsimp only; omega
      · dsimp only; omega

/-- C9.  In dry-run mode the run performs only per-file
destination-existence checks: the returned world's audio files are exactly
the initial ones (no destination audio file is created or modified; only
the destination root directory is created, which happens before the mode
split), and `WouldConvert + Skipped` equals the number of discovered
files. -/
theorem C9_dry_run_creates_no_audio_files (w : World) (c : Config)
    (hsrc : pathExists w.fs c.src = true) (hdry : c.dryRun = true)
    (hne : (discover w.fs.files c.src).isEmpty = false) :
    ∃ wc ws,
      run_conversion w c =
        (.dryRunOut wc ws,
         { w with fs := { w.fs with dirs := mkdirParents w.fs.dirs c.dst } },
         [⟨.info, "starting conversion"⟩]) ∧
      wc + ws = (discover w.fs.files c.src).length ∧
      ({ w with fs := { w.fs with dirs := mkdirParents w.fs.dirs c.dst } } : World).fs.files
        = w.fs.files := by
  refine ⟨(dryCount { w.fs with dirs := mkdirParents w.fs.dirs c.dst } c.src c.dst
      (discover w.fs.files c.src)).1,
    (dryCount { w.fs with dirs := mkdirParents w.fs.dirs c.dst } c.src c.dst
      (discover w.fs.files c.src)).2, ?_, dryCount_sum _ _ _ _, rfl⟩
  unfold run_conversion
  rw [hsrc]
  simp only [Bool.not_true, Bool.false_eq_true, if_false]
  have hne' : (discover ({ w.fs with dirs := mkdirParents w.fs.dirs c.dst } : FS).files
      c.src).isEmpty = false := hne
  rw [hne']
  simp only [Bool.false_eq_true, if_false, hdry, if_true]

/-- Witness for C9: one discovered file, destination absent. -/
theorem C9_dry_run_creates_no_audio_files_witness :
    ∃ wc ws,
      run_conversion
          ⟨⟨[["s", "a.wav"]], [], [["s"]]⟩, fun _ => true, fun _ => none, fun _ => true⟩
          ⟨["s"], ["d"], "192k", 4, true, 0⟩ =
        (.dryRunOut wc ws,
         { (⟨⟨[["s", "a.wav"]], [], [["s"]]⟩, fun _ => true, fun _ => none,
              fun _ => true⟩ : World) with
           fs := { (⟨[["s", "a.wav"]], [], [["s"]]⟩ : FS) with
             dirs := mkdirParents [["s"]] ["d"] } },
         [⟨.info, "starting conversion"⟩]) ∧
      wc + ws = (discover [["s", "a.wav"]] ["s"]).length ∧
      ({ (⟨⟨[["s", "a.wav"]], [], [["s"]]⟩, fun _ => true, fun _ => none,
            fun _ => true⟩ : World) with
         fs := { (⟨[["s", "a.wav"]], [], [["s"]]⟩ : FS) with
           dirs := mkdirParents [["s"]] ["d"] } } : World).fs.files = [["s", "a.wav"]] :=
  C9_dry_run_creates_no_audio_files
    ⟨⟨[["s", "a.wav"]], [], [["s"]]⟩, fun _ => true, fun _ => none, fun _ => true⟩
    ⟨["s"], ["d"], "192k", 4, true, 0⟩ rfl rfl rfl

/-! ## Theorems: exit status (C7) -/

/-- C7 counterexample.  The claim says the process exit status is non-zero
when the source directory does not exist; but the script contains no
`sys.exit` at all — `run_conversion` just prints the error and returns, so
`main` falls through and the interpreter exits with status 0 even in that
case. -/
theorem C7_counterexample_missing_src_still_exit_zero :
    pathExists (⟨[], [], []⟩ : FS) ["missing"] = false ∧
    (mainExit ⟨⟨[], [], []⟩, fun _ => true, fun _ => none, fun _ => true⟩
        ⟨["missing"], ["d"], "192k", 4, false, 0⟩).2 = 0 ∧
    (mainExit ⟨⟨[], [], []⟩, fun _ => true, fun _ => none, fun _ => true⟩
        ⟨["missing"], ["d"], "192k", 4, false, 0⟩).1 = RunOut.abortedNoSrc := by
  exact ⟨rfl, rfl, rfl⟩

/-- C7 as amended.  The process exit status is zero in *every* case the
program handles: a missing source directory only prints an error and aborts
the run before any task is created (the world is returned untouched), and
per-file failures are visible only in the summary counts and the log —
never in the exit status. -/
theorem C7_exit_status_always_zero (w : World) (c : Config) :
    (mainExit w c).2 = 0 ∧
    (pathExists w.fs c.src = false → run_conversion w c = (.abortedNoSrc, w, [])) := by
  refine ⟨rfl, fun h => ?_⟩
  simp [run_conversion, h]

/-- Witness for C7 at a concrete missing-source world. -/
theorem C7_exit_status_always_zero_witness :
    (mainExit ⟨⟨[], [], [["other"]]⟩, fun _ => true, fun _ => none, fun _ => true⟩
        ⟨["gone"], ["d"], "320k", 1, false, 0⟩).2 = 0 ∧
    run_conversion ⟨⟨[], [], [["other"]]⟩, fun _ => true, fun _ => none, fun _ => true⟩
        ⟨["gone"], ["d"], "320k", 1, false, 0⟩ =
      (.abortedNoSrc,
       ⟨⟨[], [], [["other"]]⟩, fun _ => true, fun _ => none, fun _ => true⟩, []) :=
  ⟨(C7_exit_status_always_zero
      ⟨⟨[], [], [["other"]]⟩, fun _ => true, fun _ => none, fun _ => true⟩
      ⟨["gone"], ["d"], "320k", 1, false, 0⟩).1,
   (C7_exit_status_always_zero
      ⟨⟨[], [], [["other"]]⟩, fun _ => true, fun _ => none, fun _ => true⟩
      ⟨["gone"], ["d"], "320k", 1, false, 0⟩).2 rfl⟩

end W2M
